import Mathlib

set_option maxHeartbeats 1000000

noncomputable section

/-! Shallow embedding of the slumprutt backend route generator
    (backend/src/routeGenerator.ts, types.ts, and the express handler).
    JavaScript numbers are modelled as real numbers.  Math.random() is
    modelled as an oracle stream of draws; each generated route consumes
    its own stream (route i receives stream rnd i), which realises the
    same set of possible outcomes as the sequential consumption of the
    single global stream in the source.  The external OSRM service is
    modelled as an oracle from the request content (routing profile and
    coordinate list, exactly the data encoded in the request URL) to an
    outcome: a thrown network/parse exception or a parsed JSON reply. -/

/-- A latitude/longitude pair in degrees (types.ts, Coordinate). -/
@[ext]
structure Coordinate where
  lat : ℝ
  lon : ℝ

/-- A turn-by-turn step (types.ts, RouteStep). -/
structure RouteStep where
  instruction : String
  distance : ℝ
  duration : ℝ

/-- A generated route (types.ts, GeneratedRoute).  Optional TS fields
    (distance, duration, steps) are modelled with Option. -/
structure GeneratedRoute where
  id : ℤ
  points : List Coordinate
  waypoints : List Coordinate
  isLoop : Bool
  distance : Option ℝ
  duration : Option ℝ
  steps : Option (List RouteStep)

/-- JavaScript Math.atan2(y, x). -/
def atan2 (y x : ℝ) : ℝ :=
  if 0 < x then Real.arctan (y / x)
  else if x < 0 then
    (if 0 ≤ y then Real.arctan (y / x) + Real.pi else Real.arctan (y / x) - Real.pi)
  else
    (if 0 < y then Real.pi / 2 else if y < 0 then -(Real.pi / 2) else 0)

/-- The haversine intermediate value `a` of calculateDistance
    (routeGenerator.ts lines 9-17): sin(dLat/2)^2 plus
    cos(lat1)*cos(lat2)*sin(dLon/2)^2, written with the source's
    repeated-multiplication form. -/
def havA (c1 c2 : Coordinate) : ℝ :=
  Real.sin ((c2.lat - c1.lat) * Real.pi / 180 / 2) *
      Real.sin ((c2.lat - c1.lat) * Real.pi / 180 / 2) +
    Real.cos (c1.lat * Real.pi / 180) * Real.cos (c2.lat * Real.pi / 180) *
      Real.sin ((c2.lon - c1.lon) * Real.pi / 180 / 2) *
      Real.sin ((c2.lon - c1.lon) * Real.pi / 180 / 2)

/-- calculateDistance (routeGenerator.ts lines 7-21): haversine distance,
    Earth radius 6371 km, `c = 2 * atan2(sqrt a, sqrt (1 - a))`. -/
def calculateDistance (c1 c2 : Coordinate) : ℝ :=
  6371 * (2 * atan2 (Real.sqrt (havA c1 c2)) (Real.sqrt (1 - havA c1 c2)))

/-- calculateRouteDistance (routeGenerator.ts lines 26-32): sum of the
    distances of consecutive pairs. -/
def calculateRouteDistance : List Coordinate → ℝ
  | [] => 0
  | [_] => 0
  | p :: q :: rest => calculateDistance p q + calculateRouteDistance (q :: rest)

/-- generateRandomWaypoints (routeGenerator.ts lines 37-58).  Waypoint i
    consumes four draws: rnd (4i) for the latitude of the bounding-box
    sample, rnd (4i+1) for its longitude, rnd (4i+2) and rnd (4i+3) for
    the ±0.005-degree perturbations. -/
def generateRandomWaypoints (start e : Coordinate) (count : ℕ) (rnd : ℕ → ℝ) :
    List Coordinate :=
  (List.range count).map (fun i =>
    let lat := start.lat + rnd (4 * i) * (e.lat - start.lat)
    let lon := start.lon + rnd (4 * i + 1) * (e.lon - start.lon)
    let randomOffset : ℝ := 0.01
    { lat := lat + (rnd (4 * i + 2) - 0.5) * randomOffset,
      lon := lon + (rnd (4 * i + 3) - 0.5) * randomOffset })

/-- generateLoopWaypoints (routeGenerator.ts lines 64-102).  Waypoint i
    consumes two draws: rnd (2i) for the angle perturbation and
    rnd (2i+1) for the radius perturbation. -/
def generateLoopWaypoints (start : Coordinate) (targetDistanceKm : ℝ)
    (variationIndex : ℕ) (rnd : ℕ → ℝ) : List Coordinate :=
  let numWaypoints := max 3 (min 5 (3 + variationIndex))
  let baseRadius := targetDistanceKm / (2 * Real.pi) * 1.5
  let latPerKm : ℝ := 1 / 111
  let lonPerKm : ℝ := 1 / (111 * Real.cos (start.lat * Real.pi / 180))
  let primaryDirection := ((variationIndex : ℝ) * (2 * Real.pi)) / 3
  (List.range numWaypoints).map (fun (i : ℕ) =>
    let baseAngle := (i : ℝ) / (numWaypoints : ℝ) * 2 * Real.pi + primaryDirection
    let angleVariation := (rnd (2 * i) - 0.5) * 0.3
    let angle := baseAngle + angleVariation
    let radiusVariation := 0.8 + rnd (2 * i + 1) * 0.4
    let radius := baseRadius * radiusVariation
    { lat := start.lat + Real.sin angle * radius * latPerKm,
      lon := start.lon + Real.cos angle * radius * lonPerKm })

/-- generateRoutes (routeGenerator.ts lines 107-146).  numRoutes is a JS
    number used as a for-loop bound, modelled as an integer; the loop body
    runs for i = 0 .. numRoutes-1 (no iterations when numRoutes ≤ 0).
    Route i draws its randomness from the stream rnd i. -/
def generateRoutes (start : Coordinate) (endCoord : Option Coordinate)
    (numRoutes : ℤ) (distanceKm : ℝ) (rnd : ℕ → ℕ → ℝ) : List GeneratedRoute :=
  (List.range numRoutes.toNat).map (fun (i : ℕ) =>
    match endCoord with
    | none =>
      let waypoints := generateLoopWaypoints start distanceKm i (rnd i)
      let points := start :: (waypoints ++ [start])
      { id := (i : ℤ), points := points, waypoints := waypoints, isLoop := true,
        distance := some (calculateRouteDistance points),
        duration := none, steps := none }
    | some e =>
      let directDistance := calculateDistance start e
      let extraDistance := distanceKm - directDistance
      let waypointCount := max 1 ⌊extraDistance / 2⌋
      let waypoints := generateRandomWaypoints start e waypointCount.toNat (rnd i)
      let points := start :: (waypoints ++ [e])
      { id := (i : ℤ), points := points, waypoints := waypoints, isLoop := false,
        distance := some (calculateRouteDistance points),
        duration := none, steps := none })

/-- One step of the parsed OSRM JSON reply (maneuver.instruction and name
    are absent-or-falsy-capable, modelled with Option). -/
structure OsrmStep where
  maneuverInstruction : Option String
  name : Option String
  distance : ℝ
  duration : ℝ

/-- One leg of the parsed OSRM JSON reply; steps may be missing. -/
structure OsrmLeg where
  steps : Option (List OsrmStep)

/-- One route of the parsed OSRM JSON reply; geometry.coordinates is a
    list of (lon, lat) pairs; legs may be missing. -/
structure OsrmRoute where
  geometry : List (ℝ × ℝ)
  legs : Option (List OsrmLeg)
  distance : ℝ
  duration : ℝ

/-- The parsed OSRM JSON reply; routes may be missing. -/
structure OsrmData where
  code : String
  routes : Option (List OsrmRoute)

/-- Outcome of one fetch+parse of the OSRM service: a thrown exception
    or a parsed reply. -/
inductive FetchOutcome where
  | throw : FetchOutcome
  | reply : OsrmData → FetchOutcome

/-- The mode-to-profile mapping of getRoutedPaths (routeGenerator.ts
    line 156). -/
def osrmProfile (mode : String) : String :=
  if mode = ("car") then ("driving") else if mode = ("bike") then ("cycling") else ("foot")

/-- Builds one RouteStep from an OSRM step (routeGenerator.ts lines
    185-189), with the `Continue on` fallback instruction. -/
def buildStep (s : OsrmStep) : RouteStep :=
  { instruction := s.maneuverInstruction.getD (("Continue on ") ++ s.name.getD ("road")),
    distance := s.distance, duration := s.duration }

/-- The nested legs/steps flattening of getRoutedPaths (routeGenerator.ts
    lines 180-193). -/
def extractSteps (r : OsrmRoute) : List RouteStep :=
  match r.legs with
  | none => []
  | some legs => (legs.map (fun leg => (leg.steps.getD []).map buildStep)).flatten

/-- Whether the OSRM call for the given request content succeeds, i.e.
    no exception is thrown, data.code is Ok and a first route is present
    (the condition of routeGenerator.ts line 170). -/
def callSucceeded (router : String → List Coordinate → FetchOutcome)
    (profile : String) (pts : List Coordinate) : Bool :=
  match router profile pts with
  | FetchOutcome.throw => false
  | FetchOutcome.reply data =>
    (data.code == ("Ok")) &&
      (match data.routes with
       | some (_ :: _) => true
       | _ => false)

/-- The body of the per-route loop of getRoutedPaths (routeGenerator.ts
    lines 160-212): on success replace points/distance/duration and set
    steps; on non-Ok code, missing first route, or thrown exception keep
    the original route. -/
def routeOne (router : String → List Coordinate → FetchOutcome)
    (mode : String) (route : GeneratedRoute) : GeneratedRoute :=
  match router (osrmProfile mode) route.points with
  | FetchOutcome.throw => route
  | FetchOutcome.reply data =>
    if data.code = ("Ok") then
      match data.routes with
      | some (osrmRoute :: _) =>
        { route with
          points := osrmRoute.geometry.map (fun c => { lat := c.2, lon := c.1 }),
          distance := some (osrmRoute.distance / 1000),
          duration := some (osrmRoute.duration / 60),
          steps := some (extractSteps osrmRoute) }
      | _ => route
    else route

/-- getRoutedPaths (routeGenerator.ts lines 152-217): the sequential
    per-route loop appending one result per input route, in order. -/
def getRoutedPaths (router : String → List Coordinate → FetchOutcome)
    (routes : List GeneratedRoute) (mode : String) : List GeneratedRoute :=
  routes.map (routeOne router mode)

/-- A possibly-incomplete start coordinate as it arrives in the JSON
    request body (either field may be missing). -/
structure RawCoordinate where
  lat : Option ℝ
  lon : Option ℝ

/-- The inbound request body (types.ts, RouteRequest), every field
    optional as in JSON; endCoord models the `end` field. -/
structure RouteRequestBody where
  start : Option RawCoordinate
  endCoord : Option Coordinate
  mode : Option String
  numRoutes : Option ℤ
  distanceKm : Option ℝ

/-- Result of the POST /api/route handler: a client error with status
    and message, or the routes/mode payload. -/
inductive ApiResult where
  | clientError : ℕ → String → ApiResult
  | ok : List GeneratedRoute → String → ApiResult

/-- The JS truthiness test `!start?.lat || !start?.lon` of the handler:
    the start object is missing, or either field is missing or zero
    (0 is falsy for JS numbers; NaN is not modelled). -/
def startMissingOrFalsy (start : Option RawCoordinate) : Prop :=
  match start with
  | none => True
  | some c => c.lat = none ∨ c.lat = some 0 ∨ c.lon = none ∨ c.lon = some 0

/-- The POST /api/route handler (backend index.ts): validate start,
    apply defaults (mode walk, numRoutes 3, distanceKm 5), generate
    routes, enrich them through OSRM, and answer. -/
def handleRoute (router : String → List Coordinate → FetchOutcome)
    (rnd : ℕ → ℕ → ℝ) (body : RouteRequestBody) : ApiResult :=
  match body.start with
  | none => ApiResult.clientError 400 ("Start location with lat/lon required")
  | some c =>
    match c.lat, c.lon with
    | some la, some lo =>
      if la = 0 ∨ lo = 0 then
        ApiResult.clientError 400 ("Start location with lat/lon required")
      else
        let mode := body.mode.getD ("walk")
        let routes := generateRoutes { lat := la, lon := lo } body.endCoord
          (body.numRoutes.getD 3) (body.distanceKm.getD 5) rnd
        ApiResult.ok (getRoutedPaths router routes mode) mode
    | _, _ => ApiResult.clientError 400 ("Start location with lat/lon required")

/-! Helper lemmas. -/

theorem havA_comm (a b : Coordinate) : havA a b = havA b a := by
  unfold havA
  rw [show (a.lat - b.lat) * Real.pi / 180 / 2 =
        -((b.lat - a.lat) * Real.pi / 180 / 2) by ring,
      show (a.lon - b.lon) * Real.pi / 180 / 2 =
        -((b.lon - a.lon) * Real.pi / 180 / 2) by ring,
      Real.sin_neg, Real.sin_neg]
  ring

theorem havA_self (a : Coordinate) : havA a a = 0 := by
  unfold havA
  simp

theorem length_generateLoopWaypoints (start : Coordinate) (D : ℝ) (v : ℕ)
    (rnd : ℕ → ℝ) :
    (generateLoopWaypoints start D v rnd).length = max 3 (min 5 (3 + v)) := by
  simp [generateLoopWaypoints]

theorem length_generateRandomWaypoints (start e : Coordinate) (count : ℕ)
    (rnd : ℕ → ℝ) :
    (generateRandomWaypoints start e count rnd).length = count := by
  simp [generateRandomWaypoints]

/-- C7: calculateDistance is symmetric in its two arguments, and is zero
    on a pair of equal coordinates. -/
theorem calculateDistance_symm_self :
    (∀ a b : Coordinate, calculateDistance a b = calculateDistance b a) ∧
    (∀ a : Coordinate, calculateDistance a a = 0) := by
  constructor
  · intro a b
    unfold calculateDistance
    rw [havA_comm]
  · intro a
    unfold calculateDistance
    rw [havA_self]
    norm_num [atan2, Real.arctan_zero]

/-- C10: for every nonpositive numRoutes, generateRoutes returns the
    empty list, with no error. -/
theorem generateRoutes_nonpos_nil (start : Coordinate)
    (endCoord : Option Coordinate) (n : ℤ) (D : ℝ) (rnd : ℕ → ℕ → ℝ)
    (h : n ≤ 0) :
    generateRoutes start endCoord n D rnd = [] := by
  unfold generateRoutes
  rw [Int.toNat_of_nonpos h]
  rfl

theorem generateRoutes_nonpos_nil_witness :
    generateRoutes { lat := 0, lon := 0 } none (-1) 5 (fun _ _ => 0) = [] :=
  generateRoutes_nonpos_nil _ _ _ _ _ (by norm_num)

/-- C4: generateRoutes returns exactly N routes, with ids equal to
    0..N-1 in order of position, and isLoop true exactly when the end
    coordinate is absent. -/
theorem generateRoutes_count_ids_isLoop (start : Coordinate)
    (endCoord : Option Coordinate) (n : ℤ) (D : ℝ) (rnd : ℕ → ℕ → ℝ)
    (h : 0 < n) :
    ((generateRoutes start endCoord n D rnd).length : ℤ) = n ∧
    ((generateRoutes start endCoord n D rnd).map fun r => r.id) =
      ((List.range n.toNat).map fun (i : ℕ) => (i : ℤ)) ∧
    ∀ r ∈ generateRoutes start endCoord n D rnd, r.isLoop = endCoord.isNone := by
  refine ⟨?_, ?_, ?_⟩
  · unfold generateRoutes
    rw [List.length_map, List.length_range, Int.toNat_of_nonneg h.le]
  · unfold generateRoutes
    rw [List.map_map]
    refine List.map_congr_left ?_
    intro i _
    cases endCoord <;> rfl
  · cases endCoord <;>
      · intro r hr
        unfold generateRoutes at hr
        rw [List.mem_map] at hr
        obtain ⟨i, _, hi⟩ := hr
        rw [← hi]
        rfl

/-- C2: every loop route of generateRoutes has waypoint count
    clamp(3 + variationIndex, 3, 5) (the variation index of the route at
    position i being i), hence a count in [3,5], and its assembled points
    list starts and ends exactly with start. -/
theorem generateRoutes_loop_counts_endpoints (start : Coordinate) (n : ℤ)
    (D : ℝ) (rnd : ℕ → ℕ → ℝ) (_hD : 0 < D) :
    ((generateRoutes start none n D rnd).map fun r => r.waypoints.length) =
      ((List.range n.toNat).map fun (i : ℕ) => max 3 (min 5 (3 + i))) ∧
    (∀ r ∈ generateRoutes start none n D rnd,
      3 ≤ r.waypoints.length ∧ r.waypoints.length ≤ 5) ∧
    ∀ r ∈ generateRoutes start none n D rnd,
      r.points.head? = some start ∧ r.points.getLast? = some start := by
  refine ⟨?_, ?_, ?_⟩
  · unfold generateRoutes
    rw [List.map_map]
    refine List.map_congr_left ?_
    intro i _
    simp only [Function.comp_apply]
    exact length_generateLoopWaypoints start D i (rnd i)
  · intro r hr
    unfold generateRoutes at hr
    rw [List.mem_map] at hr
    obtain ⟨i, _, hi⟩ := hr
    have hw : r.waypoints = generateLoopWaypoints start D i (rnd i) := by
      rw [← hi]
    rw [hw, length_generateLoopWaypoints]
    omega
  · intro r hr
    unfold generateRoutes at hr
    rw [List.mem_map] at hr
    obtain ⟨i, _, hi⟩ := hr
    have hp : r.points =
        start :: (generateLoopWaypoints start D i (rnd i) ++ [start]) := by
      rw [← hi]
    rw [hp]
    constructor
    · rfl
    · rw [show start :: (generateLoopWaypoints start D i (rnd i) ++ [start]) =
          (start :: generateLoopWaypoints start D i (rnd i)) ++ [start] from rfl,
        List.getLast?_concat]

theorem generateRoutes_loop_counts_endpoints_witness :
    (((generateRoutes { lat := 0, lon := 0 } none 2 4 (fun _ _ => 0)).map
        fun r => r.waypoints.length) =
      ((List.range (2 : ℤ).toNat).map fun (i : ℕ) => max 3 (min 5 (3 + i)))) ∧
    (∀ r ∈ generateRoutes { lat := 0, lon := 0 } none 2 4 (fun _ _ => 0),
      3 ≤ r.waypoints.length ∧ r.waypoints.length ≤ 5) ∧
    ∀ r ∈ generateRoutes { lat := 0, lon := 0 } none 2 4 (fun _ _ => 0),
      r.points.head? = some { lat := 0, lon := 0 } ∧
      r.points.getLast? = some { lat := 0, lon := 0 } :=
  generateRoutes_loop_counts_endpoints _ _ _ _ (by norm_num)

theorem routeOne_id (router : String → List Coordinate → FetchOutcome)
    (mode : String) (r : GeneratedRoute) : (routeOne router mode r).id = r.id := by
  unfold routeOne
  split
  · rfl
  · split
    · split <;> rfl
    · rfl

theorem routeOne_of_failed (router : String → List Coordinate → FetchOutcome)
    (mode : String) (r : GeneratedRoute)
    (h : callSucceeded router (osrmProfile mode) r.points = false) :
    routeOne router mode r = r := by
  unfold routeOne
  split
  · rfl
  · rename_i data hf
    simp only [callSucceeded, hf] at h
    split
    · rename_i hc
      split
      · rename_i o rest hr
        exfalso
        simp [hc, hr] at h
      · rfl
    · rfl

/-- C1: getRoutedPaths returns one output per input route, in the same
    order (position by position the output id equals the input id, and the
    output at position i is a function of the input route at position i
    alone, so one route's failure cannot affect another); a route whose
    external call failed is emitted unchanged, and in particular with no
    duration and no steps when its input had none. -/
theorem getRoutedPaths_length_order_fallback
    (routes : List GeneratedRoute) (mode : String)
    (router : String → List Coordinate → FetchOutcome) :
    (getRoutedPaths router routes mode).length = routes.length ∧
    ((getRoutedPaths router routes mode).map fun r => r.id) =
      (routes.map fun r => r.id) ∧
    (∀ i : ℕ, (getRoutedPaths router routes mode)[i]? =
      (routes[i]?).map (routeOne router mode)) ∧
    (∀ i : ℕ, ∀ r : GeneratedRoute, routes[i]? = some r →
      callSucceeded router (osrmProfile mode) r.points = false →
      (getRoutedPaths router routes mode)[i]? = some r) ∧
    (∀ i : ℕ, ∀ r : GeneratedRoute, routes[i]? = some r →
      callSucceeded router (osrmProfile mode) r.points = false →
      r.duration = none → r.steps = none →
      ∃ q, (getRoutedPaths router routes mode)[i]? = some q ∧
        q.duration = none ∧ q.steps = none) := by
  refine ⟨?_, ?_, ?_, ?_, ?_⟩
  · unfold getRoutedPaths
    rw [List.length_map]
  · unfold getRoutedPaths
    rw [List.map_map]
    refine List.map_congr_left ?_
    intro r _
    exact routeOne_id router mode r
  · intro i
    unfold getRoutedPaths
    rw [List.getElem?_map]
  · intro i r hi hfail
    unfold getRoutedPaths
    rw [List.getElem?_map, hi, Option.map_some', routeOne_of_failed router mode r hfail]
  · intro i r hi hfail hdur hsteps
    refine ⟨r, ?_, hdur, hsteps⟩
    unfold getRoutedPaths
    rw [List.getElem?_map, hi, Option.map_some', routeOne_of_failed router mode r hfail]

theorem getRoutedPaths_length_order_fallback_witness :
    (getRoutedPaths (fun _ _ => FetchOutcome.throw)
        [{ id := 0, points := [{ lat := 0, lon := 0 }], waypoints := [],
           isLoop := true, distance := some 5, duration := none, steps := none }]
        ("walk"))[0]? =
      some { id := 0, points := [{ lat := 0, lon := 0 }], waypoints := [],
             isLoop := true, distance := some 5, duration := none, steps := none } :=
  (getRoutedPaths_length_order_fallback _ _ _).2.2.2.1 0 _ rfl rfl

/-- C6: when the external call for a route succeeds (reply with code Ok
    and a first route), getRoutedPaths keeps the route's id, isLoop and
    waypoints, and replaces points with the returned (lon, lat) geometry
    converted to the coordinate model, distance with the returned meters
    divided by 1000, and duration with the returned seconds divided by 60. -/
theorem getRoutedPaths_success_enrich
    (routes : List GeneratedRoute) (mode : String)
    (router : String → List Coordinate → FetchOutcome)
    (i : ℕ) (r : GeneratedRoute) (data : OsrmData) (o : OsrmRoute)
    (rest : List OsrmRoute)
    (h1 : routes[i]? = some r)
    (h2 : router (osrmProfile mode) r.points = FetchOutcome.reply data)
    (h3 : data.code = ("Ok"))
    (h4 : data.routes = some (o :: rest)) :
    ∃ q, (getRoutedPaths router routes mode)[i]? = some q ∧
      q.id = r.id ∧ q.isLoop = r.isLoop ∧ q.waypoints = r.waypoints ∧
      q.points = (o.geometry.map fun c => { lat := c.2, lon := c.1 }) ∧
      q.distance = some (o.distance / 1000) ∧
      q.duration = some (o.duration / 60) := by
  refine ⟨routeOne router mode r, ?_, ?_⟩
  · unfold getRoutedPaths
    rw [List.getElem?_map, h1, Option.map_some']
  · simp [routeOne, h2, h3, h4]

theorem getRoutedPaths_success_enrich_witness :
    ∃ q, (getRoutedPaths
        (fun _ _ => FetchOutcome.reply
          { code := ("Ok"),
            routes := some [{ geometry := [((1 : ℝ), (2 : ℝ))], legs := none,
                              distance := 1000, duration := 120 }] })
        [{ id := 0, points := [{ lat := 0, lon := 0 }], waypoints := [],
           isLoop := true, distance := some 5, duration := none, steps := none }]
        ("walk"))[0]? = some q ∧
      q.id = 0 ∧ q.isLoop = true ∧ q.waypoints = [] ∧
      q.points = ([((1 : ℝ), (2 : ℝ))].map fun c => { lat := c.2, lon := c.1 }) ∧
      q.distance = some ((1000 : ℝ) / 1000) ∧
      q.duration = some ((120 : ℝ) / 60) :=
  getRoutedPaths_success_enrich _ _ _ 0
    { id := 0, points := [{ lat := 0, lon := 0 }], waypoints := [],
      isLoop := true, distance := some 5, duration := none, steps := none }
    { code := ("Ok"),
      routes := some [{ geometry := [((1 : ℝ), (2 : ℝ))], legs := none,
                        distance := 1000, duration := 120 }] }
    { geometry := [((1 : ℝ), (2 : ℝ))], legs := none,
      distance := 1000, duration := 120 } [] rfl rfl rfl rfl

/-- C8: a request whose start coordinate is missing, or whose start.lat
    or start.lon is missing or falsy (zero), is answered with the 400
    client error and message, whatever the router oracle, the randomness
    and the rest of the body: no generation or routing work influences
    the answer. -/
theorem handleRoute_rejects_bad_start
    (router : String → List Coordinate → FetchOutcome) (rnd : ℕ → ℕ → ℝ)
    (body : RouteRequestBody) (h : startMissingOrFalsy body.start) :
    handleRoute router rnd body =
      ApiResult.clientError 400 ("Start location with lat/lon required") := by
  obtain ⟨st, e, m, nr, dk⟩ := body
  rcases st with _ | ⟨clat, clon⟩
  · rfl
  · rcases clat with _ | la
    · rfl
    · rcases clon with _ | lo
      · rfl
      · simp only [startMissingOrFalsy] at h
        have h' : la = 0 ∨ lo = 0 := by
          rcases h with h | h | h | h
          · exact absurd h (by simp)
          · exact Or.inl (by simpa using h)
          · exact absurd h (by simp)
          · exact Or.inr (by simpa using h)
        unfold handleRoute
        show (if la = 0 ∨ lo = 0 then
            ApiResult.clientError 400 ("Start location with lat/lon required")
          else _) = _
        rw [if_pos h']

theorem handleRoute_rejects_bad_start_witness :
    handleRoute (fun _ _ => FetchOutcome.throw) (fun _ _ => 0)
      { start := none, endCoord := none, mode := none,
        numRoutes := none, distanceKm := none } =
      ApiResult.clientError 400 ("Start location with lat/lon required") :=
  handleRoute_rejects_bad_start _ _ _ trivial

/-- C5: for draws in [0,1), the i-th loop waypoint is start plus
    (sin(angle)·radius·(1/111), cos(angle)·radius·(1/(111·cos(lat·π/180))))
    with angle = (i/numWaypoints)·2π + variationIndex·(2π/3) + δ for some
    δ in [-0.15, 0.15] and radius = (D/(2π)·1.5)·f for some f in
    [0.8, 1.2]; sin is paired with latitude and cos with longitude. -/
theorem generateLoopWaypoints_formula (start : Coordinate) (D : ℝ) (v : ℕ)
    (rnd : ℕ → ℝ) (hr : ∀ n, 0 ≤ rnd n ∧ rnd n < 1) (i : ℕ)
    (hi : i < max 3 (min 5 (3 + v))) :
    ∃ δ f : ℝ, -0.15 ≤ δ ∧ δ ≤ 0.15 ∧ 0.8 ≤ f ∧ f ≤ 1.2 ∧
      (generateLoopWaypoints start D v rnd)[i]? = some
        { lat := start.lat +
            Real.sin ((i : ℝ) / ((max 3 (min 5 (3 + v)) : ℕ) : ℝ) * (2 * Real.pi) +
                (v : ℝ) * (2 * Real.pi / 3) + δ) *
              (D / (2 * Real.pi) * 1.5 * f) * (1 / 111),
          lon := start.lon +
            Real.cos ((i : ℝ) / ((max 3 (min 5 (3 + v)) : ℕ) : ℝ) * (2 * Real.pi) +
                (v : ℝ) * (2 * Real.pi / 3) + δ) *
              (D / (2 * Real.pi) * 1.5 * f) *
              (1 / (111 * Real.cos (start.lat * Real.pi / 180))) } := by
  refine ⟨(rnd (2 * i) - 0.5) * 0.3, 0.8 + rnd (2 * i + 1) * 0.4, ?_, ?_, ?_, ?_, ?_⟩
  · nlinarith [(hr (2 * i)).1, (hr (2 * i)).2]
  · nlinarith [(hr (2 * i)).1, (hr (2 * i)).2]
  · nlinarith [(hr (2 * i + 1)).1, (hr (2 * i + 1)).2]
  · nlinarith [(hr (2 * i + 1)).1, (hr (2 * i + 1)).2]
  · unfold generateLoopWaypoints
    rw [List.getElem?_map, List.getElem?_range hi, Option.map_some']
    have hang : (i : ℝ) / ((max 3 (min 5 (3 + v)) : ℕ) : ℝ) * 2 * Real.pi +
          ((v : ℝ) * (2 * Real.pi)) / 3 + (rnd (2 * i) - 0.5) * 0.3 =
        (i : ℝ) / ((max 3 (min 5 (3 + v)) : ℕ) : ℝ) * (2 * Real.pi) +
          (v : ℝ) * (2 * Real.pi / 3) + (rnd (2 * i) - 0.5) * 0.3 := by ring
    congr 1
    rw [Coordinate.mk.injEq]
    constructor
    · rw [hang]
    · rw [hang]

theorem generateLoopWaypoints_formula_witness :
    ∃ δ f : ℝ, -0.15 ≤ δ ∧ δ ≤ 0.15 ∧ 0.8 ≤ f ∧ f ≤ 1.2 ∧
      (generateLoopWaypoints { lat := 0, lon := 0 } 1 0 (fun _ => 1 / 2))[0]? = some
        { lat := (0 : ℝ) +
            Real.sin ((0 : ℝ) / ((max 3 (min 5 (3 + 0)) : ℕ) : ℝ) * (2 * Real.pi) +
                ((0 : ℕ) : ℝ) * (2 * Real.pi / 3) + δ) *
              ((1 : ℝ) / (2 * Real.pi) * 1.5 * f) * (1 / 111),
          lon := (0 : ℝ) +
            Real.cos ((0 : ℝ) / ((max 3 (min 5 (3 + 0)) : ℕ) : ℝ) * (2 * Real.pi) +
                ((0 : ℕ) : ℝ) * (2 * Real.pi / 3) + δ) *
              ((1 : ℝ) / (2 * Real.pi) * 1.5 * f) *
              (1 / (111 * Real.cos ((0 : ℝ) * Real.pi / 180))) } := by
  simpa using generateLoopWaypoints_formula { lat := 0, lon := 0 } 1 0 (fun _ => 1 / 2)
    (fun n => by norm_num) 0 (by norm_num)

theorem havA_example_pair :
    havA { lat := 0, lon := 0 } { lat := 0, lon := 0.09 } =
      Real.sin (Real.pi / 4000) * Real.sin (Real.pi / 4000) := by
  unfold havA
  rw [show (((0 : ℝ)) - 0) * Real.pi / 180 / 2 = 0 by ring,
      show (((0.09 : ℝ)) - 0) * Real.pi / 180 / 2 = Real.pi / 4000 by ring,
      show ((0 : ℝ)) * Real.pi / 180 = 0 by ring]
  simp

theorem calculateDistance_example_pair :
    calculateDistance { lat := 0, lon := 0 } { lat := 0, lon := 0.09 } =
      6371 * Real.pi / 2000 := by
  have hpi := Real.pi_pos
  have hx0 : 0 ≤ Real.pi / 4000 := by positivity
  have hx : Real.pi / 4000 < Real.pi / 2 := by linarith
  have hsin : 0 ≤ Real.sin (Real.pi / 4000) :=
    Real.sin_nonneg_of_nonneg_of_le_pi hx0 (by linarith)
  have hcos : 0 < Real.cos (Real.pi / 4000) :=
    Real.cos_pos_of_mem_Ioo ⟨by linarith, hx⟩
  unfold calculateDistance
  rw [havA_example_pair, Real.sqrt_mul_self hsin,
    show (1 : ℝ) - Real.sin (Real.pi / 4000) * Real.sin (Real.pi / 4000) =
        Real.cos (Real.pi / 4000) * Real.cos (Real.pi / 4000) by
      nlinarith [Real.sin_sq_add_cos_sq (Real.pi / 4000)],
    Real.sqrt_mul_self hcos.le]
  unfold atan2
  rw [if_pos hcos, ← Real.tan_eq_sin_div_cos, Real.arctan_tan (by linarith) hx]
  ring

theorem waypointCount_example_pair :
    max 1 ⌊((15 : ℝ) -
      calculateDistance { lat := 0, lon := 0 } { lat := 0, lon := 0.09 }) / 2⌋ = 2 := by
  rw [calculateDistance_example_pair]
  have h3 : (3 : ℝ) < Real.pi := Real.pi_gt_three
  have h315 : Real.pi < 3.15 := Real.pi_lt_d2
  have hf : ⌊((15 : ℝ) - 6371 * Real.pi / 2000) / 2⌋ = 2 := by
    rw [Int.floor_eq_iff]
    constructor
    · push_cast
      nlinarith
    · push_cast
      nlinarith
  rw [hf]
  norm_num

/-- C3: every point-to-point route of generateRoutes has first point
    start, last point end, and exactly max(1, floor((D - direct)/2))
    intermediate waypoints where direct = calculateDistance start end;
    for start (0,0), end (0,0.09), D = 15 the waypoint count is 2. -/
theorem generateRoutes_p2p_endpoints_count :
    (∀ (start e : Coordinate) (n : ℤ) (D : ℝ) (rnd : ℕ → ℕ → ℝ),
      ((generateRoutes start (some e) n D rnd).map fun r =>
          ((r.points.head?, r.points.getLast?), (r.waypoints.length : ℤ))) =
        List.replicate n.toNat
          ((some start, some e), max 1 ⌊(D - calculateDistance start e) / 2⌋)) ∧
    ∀ rnd : ℕ → ℕ → ℝ,
      ((generateRoutes { lat := 0, lon := 0 } (some { lat := 0, lon := 0.09 })
          1 15 rnd).map fun r => r.waypoints.length) = [2] := by
  constructor
  · intro start e n D rnd
    rw [List.eq_replicate_iff]
    constructor
    · rw [List.length_map]
      unfold generateRoutes
      rw [List.length_map, List.length_range]
    · intro b hb
      rw [List.mem_map] at hb
      obtain ⟨r, hr, hrb⟩ := hb
      unfold generateRoutes at hr
      rw [List.mem_map] at hr
      obtain ⟨i, _, hi⟩ := hr
      subst hrb
      have hw : r.waypoints = generateRandomWaypoints start e
          (max 1 ⌊(D - calculateDistance start e) / 2⌋).toNat (rnd i) := by
        rw [← hi]
      have hp : r.points = start ::
          (generateRandomWaypoints start e
            (max 1 ⌊(D - calculateDistance start e) / 2⌋).toNat (rnd i) ++ [e]) := by
        rw [← hi]
      have hlast : r.points.getLast? = some e := by
        rw [hp, show start ::
            (generateRandomWaypoints start e
              (max 1 ⌊(D - calculateDistance start e) / 2⌋).toNat (rnd i) ++ [e]) =
          (start :: generateRandomWaypoints start e
              (max 1 ⌊(D - calculateDistance start e) / 2⌋).toNat (rnd i)) ++ [e]
          from rfl, List.getLast?_concat]
      have hhead : r.points.head? = some start := by rw [hp]; rfl
      rw [hhead, hlast, hw, length_generateRandomWaypoints,
        Int.toNat_of_nonneg (le_trans zero_le_one (le_max_left _ _))]
  · intro rnd
    unfold generateRoutes
    rw [show ((1 : ℤ).toNat) = 1 from rfl, show List.range 1 = [0] from rfl,
      List.map_cons, List.map_nil, List.map_cons, List.map_nil, List.cons.injEq]
    refine ⟨?_, rfl⟩
    show (generateRandomWaypoints { lat := 0, lon := 0 } { lat := 0, lon := 0.09 }
      (max 1 ⌊((15 : ℝ) -
        calculateDistance { lat := 0, lon := 0 } { lat := 0, lon := 0.09 }) / 2⌋).toNat
      (rnd 0)).length = 2
    rw [length_generateRandomWaypoints, waypointCount_example_pair]
    rfl

theorem sin_cos_offset_ne (a R kl ko s t : ℝ) (hR : R ≠ 0) (hkl : kl ≠ 0)
    (hko : ko ≠ 0) (h1 : s + Real.sin a * R * kl = s)
    (h2 : t + Real.cos a * R * ko = t) : False := by
  have hs : Real.sin a = 0 := by
    have h1' : Real.sin a * R * kl = 0 := by linarith
    rcases mul_eq_zero.mp h1' with h | h
    · rcases mul_eq_zero.mp h with h' | h'
      · exact h'
      · exact absurd h' hR
    · exact absurd h hkl
  have hc : Real.cos a = 0 := by
    have h2' : Real.cos a * R * ko = 0 := by linarith
    rcases mul_eq_zero.mp h2' with h | h
    · rcases mul_eq_zero.mp h with h' | h'
      · exact h'
      · exact absurd h' hR
    · exact absurd h hko
  have hone := Real.sin_sq_add_cos_sq a
  rw [hs, hc] at hone
  norm_num at hone

/-- C9 is false as stated: with legitimate draws (every value in [0,1);
    here draws 0, 0, 0.5, 0.5 for the first waypoint), a point-to-point
    route of generateRoutes contains a waypoint exactly equal to start:
    the bounding-box samples land on start and the two ±0.005-degree
    perturbations are exactly zero. -/
theorem waypoint_eq_start_cex :
    ∃ r ∈ generateRoutes { lat := 0, lon := 0 } (some { lat := 1, lon := 1 }) 1 5
        (fun _ k => if k = 2 ∨ k = 3 then 1 / 2 else 0),
      ({ lat := 0, lon := 0 } : Coordinate) ∈ r.waypoints := by
  have hcnt : 0 < (max 1
      ⌊((5 : ℝ) - calculateDistance { lat := 0, lon := 0 } { lat := 1, lon := 1 }) / 2⌋).toNat := by
    rw [Int.lt_toNat]
    have h1 : (1 : ℤ) ≤ max 1
        ⌊((5 : ℝ) - calculateDistance { lat := 0, lon := 0 } { lat := 1, lon := 1 }) / 2⌋ :=
      le_max_left _ _
    omega
  unfold generateRoutes
  rw [show ((1 : ℤ).toNat) = 1 from rfl, show List.range 1 = [0] from rfl,
    List.map_cons, List.map_nil]
  refine ⟨_, List.mem_singleton_self _, ?_⟩
  show ({ lat := 0, lon := 0 } : Coordinate) ∈
    generateRandomWaypoints { lat := 0, lon := 0 } { lat := 1, lon := 1 }
      (max 1
        ⌊((5 : ℝ) - calculateDistance { lat := 0, lon := 0 } { lat := 1, lon := 1 }) / 2⌋).toNat
      (fun k => if k = 2 ∨ k = 3 then 1 / 2 else 0)
  unfold generateRandomWaypoints
  refine List.mem_map.mpr ⟨0, List.mem_range.mpr hcnt, ?_⟩
  dsimp only
  rw [Coordinate.mk.injEq]
  norm_num

/-- C9 amended: for loop routes with a nonzero target distance and a
    start latitude whose degree-to-radian cosine is nonzero, no waypoint
    equals start (for draws in [0,1)); in point-to-point mode (and for a
    zero loop target distance) a waypoint may coincide with start or end
    under particular draws, so no exclusion is guaranteed there. -/
theorem loop_waypoints_ne_start (start : Coordinate) (n : ℤ) (D : ℝ)
    (rnd : ℕ → ℕ → ℝ) (hD : D ≠ 0)
    (hr : ∀ i k, 0 ≤ rnd i k ∧ rnd i k < 1)
    (hlat : Real.cos (start.lat * Real.pi / 180) ≠ 0) :
    ∀ r ∈ generateRoutes start none n D rnd, ∀ w ∈ r.waypoints, w ≠ start := by
  intro r hrm w hw heq
  simp only [generateRoutes, List.mem_map] at hrm
  obtain ⟨i, _, hi⟩ := hrm
  rw [← hi] at hw
  simp only [generateLoopWaypoints, List.mem_map] at hw
  obtain ⟨j, _, hj⟩ := hw
  rw [← hj, Coordinate.ext_iff] at heq
  dsimp only at heq
  obtain ⟨h1, h2⟩ := heq
  have h2pi : (2 : ℝ) * Real.pi ≠ 0 := (by positivity : (0 : ℝ) < 2 * Real.pi).ne'
  have hbr : D / (2 * Real.pi) * 1.5 ≠ 0 :=
    mul_ne_zero (div_ne_zero hD h2pi) (by norm_num)
  have hrv : (0 : ℝ) < 0.8 + rnd i (2 * j + 1) * 0.4 := by
    nlinarith [(hr i (2 * j + 1)).1]
  have hR : D / (2 * Real.pi) * 1.5 * (0.8 + rnd i (2 * j + 1) * 0.4) ≠ 0 :=
    mul_ne_zero hbr hrv.ne'
  have hkl : (1 : ℝ) / 111 ≠ 0 := by norm_num
  have hko : (1 : ℝ) / (111 * Real.cos (start.lat * Real.pi / 180)) ≠ 0 :=
    one_div_ne_zero (mul_ne_zero (by norm_num) hlat)
  exact sin_cos_offset_ne _ _ _ _ _ _ hR hkl hko h1 h2

theorem loop_waypoints_ne_start_witness :
    ∃ r ∈ generateRoutes { lat := 0, lon := 0 } none 1 1 (fun _ _ => 0),
      ∃ w ∈ r.waypoints, w ≠ ({ lat := 0, lon := 0 } : Coordinate) := by
  have main := loop_waypoints_ne_start { lat := 0, lon := 0 } 1 1 (fun _ _ => 0)
    (by norm_num) (fun i k => by norm_num) (by simp)
  unfold generateRoutes at main ⊢
  rw [show ((1 : ℤ).toNat) = 1 from rfl, show List.range 1 = [0] from rfl,
    List.map_cons, List.map_nil] at main ⊢
  refine ⟨_, List.mem_singleton_self _, ?_⟩
  have hex : ∃ w, w ∈ generateLoopWaypoints { lat := 0, lon := 0 } 1 0 (fun _ => 0) := by
    unfold generateLoopWaypoints
    exact ⟨_, List.mem_map.mpr ⟨0, List.mem_range.mpr (by norm_num), rfl⟩⟩
  obtain ⟨w, hw⟩ := hex
  exact ⟨w, hw, main _ (List.mem_singleton_self _) w hw⟩

theorem generateRoutes_count_ids_isLoop_witness :
    ((generateRoutes { lat := 0, lon := 0 } none 2 5 (fun _ _ => 0)).length : ℤ) = 2 ∧
    ((generateRoutes { lat := 0, lon := 0 } none 2 5 (fun _ _ => 0)).map fun r => r.id) =
      ((List.range (2 : ℤ).toNat).map fun (i : ℕ) => (i : ℤ)) ∧
    ∀ r ∈ generateRoutes { lat := 0, lon := 0 } none 2 5 (fun _ _ => 0),
      r.isLoop = (none : Option Coordinate).isNone :=
  generateRoutes_count_ids_isLoop _ _ _ _ _ (by norm_num)

end
